import Mathlib

/-!
Verification of the two command-line tools `export_conda_env.py` and
`import_conda_env.py`.  Python strings are embedded as Lean `String`s and the
string methods the scripts use (`partition`, `replace(..., 1)`, `split`,
`strip`, `lower`, `startswith`, `join`, `in`) are modelled character by
character on `String.data`, so that every definition is executable and
kernel-reducible on concrete inputs.
-/

namespace CondaEnv

/-- Python `str.strip()`: remove leading and trailing whitespace. -/
def pyStrip (s : String) : String :=
  ⟨((s.data.dropWhile Char.isWhitespace).reverse.dropWhile Char.isWhitespace).reverse⟩

/-- Python `str.lower()` (ASCII case folding, as used on the manifest lines). -/
def pyLower (s : String) : String :=
  ⟨s.data.map Char.toLower⟩

/-- Python `s.startswith(pre)`. -/
def pyStartsWith (s pre : String) : Bool :=
  pre.data.isPrefixOf s.data

/-- Substring search on characters: does `sub` occur contiguously in `l`? -/
def containsChars (sub : List Char) : List Char → Bool
  | [] => sub.isEmpty
  | c :: rest => sub.isPrefixOf (c :: rest) || containsChars sub rest

/-- Python `sub in s`: substring containment. -/
def pyContains (s sub : String) : Bool :=
  containsChars sub.data s.data

/-- Python `sep.join(l)`. -/
def pyJoin (sep : String) : List String → String
  | [] => ""
  | [x] => x
  | x :: y :: xs => x ++ sep ++ pyJoin sep (y :: xs)

/-- Python `s.split(sep)` for a non-empty separator, on characters.  The fuel
argument (instantiated with the length of the input) makes the left-to-right
non-overlapping scan structurally recursive. -/
def pySplitAux (sep : List Char) : Nat → List Char → List (List Char)
  | _, [] => [[]]
  | 0, l => [l]
  | fuel + 1, c :: rest =>
    if sep.isPrefixOf (c :: rest) then
      [] :: pySplitAux sep fuel (List.drop sep.length (c :: rest))
    else
      match pySplitAux sep fuel rest with
      | [] => [[c]]
      | p :: ps => (c :: p) :: ps

/-- Python `s.split(sep)` for a non-empty separator. -/
def pySplit (s sep : String) : List String :=
  (pySplitAux sep.data s.data.length s.data).map fun l => ⟨l⟩

/-! ## Index checker (`check_pypi_package`, export_conda_env.py lines 74-80) -/

/-- Outcome of the single HTTP GET issued by `check_pypi_package`: either a
response carrying a status code, or a raised network exception (timeout, DNS
failure, connection error, ...). -/
inductive HttpOutcome
  | response (status : Nat)
  | exn
deriving DecidableEq

/-- `check_pypi_package`: inside the `try` block the result is
`r.status_code == 200`; the `except Exception` handler returns `False` for any
raised error, so no exception propagates to the caller. -/
def check_pypi_package : HttpOutcome → Bool
  | .response s => s == 200
  | .exn => false

/-! ## Dependency classifier (export_conda_env.py lines 129-140) -/

/-- `name, _, version = dep.partition("=")`: the name is everything before the
first `=` (the whole string when there is no `=`). -/
def nameOf (dep : String) : String :=
  ⟨dep.data.takeWhile (fun c => c != '=')⟩

/-- The characters from the first `=` on, with that `=` doubled (empty when
there is no `=`): the tail produced by `replace("=", "==", 1)`. -/
def doubleEqHead : List Char → List Char
  | [] => []
  | _ :: rest => '=' :: '=' :: rest

/-- `dep.replace("=", "==", 1)`: rewrite only the first occurrence of `=` to
`==`, leaving a string without `=` unchanged. -/
def replaceFirstEq (dep : String) : String :=
  ⟨dep.data.takeWhile (fun c => c != '=') ++
    doubleEqHead (dep.data.dropWhile (fun c => c != '='))⟩

/-- The classification loop restricted to string entries: a dependency whose
name exists on the index goes to the pip list with its first `=` doubled,
every other dependency goes to the conda-only list unmodified.  `pypi` is the
oracle for `check_pypi_package`. -/
def classify (pypi : String → Bool) : List String → List String × List String
  | [] => ([], [])
  | dep :: deps =>
    let r := classify pypi deps
    if pypi (nameOf dep) then (replaceFirstEq dep :: r.1, r.2)
    else (r.1, dep :: r.2)

/-- A raw entry of the manager's `dependencies` list as parsed from JSON:
either a string, or the nested pip mapping (the only non-string value conda
emits there). -/
inductive RawDep
  | str (s : String)
  | pipDict (pkgs : List String)
deriving DecidableEq

/-- The classification loop as written, with the `isinstance(dep, str)` guard:
non-string entries are skipped and appear in neither output list. -/
def classifyRaw (pypi : String → Bool) : List RawDep → List String × List String
  | [] => ([], [])
  | .str dep :: deps =>
    let r := classifyRaw pypi deps
    if pypi (nameOf dep) then (replaceFirstEq dep :: r.1, r.2)
    else (r.1, dep :: r.2)
  | .pipDict _ :: deps => classifyRaw pypi deps

/-- The string entries of a raw dependency list, in order. -/
def stringDeps : List RawDep → List String
  | [] => []
  | .str s :: deps => s :: stringDeps deps
  | .pipDict _ :: deps => stringDeps deps

/-! ## Root-package resolver (export_conda_env.py lines 157-165) -/

/-- The `"package"` object of a pipdeptree node: canonical key and installed
version. -/
structure PipPackage where
  key : String
  installed_version : String
deriving DecidableEq

/-- A pipdeptree node: the package together with the keys of the packages it
depends on (the `"key"` field of each entry of its `"dependencies"` list,
defaulting to the empty list). -/
structure TreeNode where
  package : PipPackage
  dependencies : List String
deriving DecidableEq

/-- `all_dependencies`: every key that appears in some node's dependency
list.  The Python set is modelled as a list queried only through
membership. -/
def allDependencies (tree : List TreeNode) : List String :=
  (tree.map TreeNode.dependencies).flatten

/-- `root_nodes`: the nodes whose key is not in `all_dependencies`, in the
order of the tree. -/
def rootNodes (tree : List TreeNode) : List TreeNode :=
  tree.filter (fun p => !(decide (p.package.key ∈ allDependencies tree)))

/-- The `f"{key}=={installed_version}"` strings appended to the pip list, one
per root node, in the tree's order. -/
def rootPackages (tree : List TreeNode) : List String :=
  (rootNodes tree).map (fun p => p.package.key ++ "==" ++ p.package.installed_version)

/-! ## Manifest writer (export_conda_env.py lines 168-190) -/

/-- An entry of the `dependencies` list of the mixed manifest: a bare conda
spec string, or the nested `{"pip": [...]}` mapping. -/
inductive YamlDep
  | str (s : String)
  | pip (pkgs : List String)
deriving DecidableEq

/-- The document written to `environment.yml`. -/
structure YamlEnv where
  name : String
  dependencies : List YamlDep
deriving DecidableEq

/-- The single manifest produced by one run: the mixed `environment.yml`
document or the flat `requirements.txt` text. -/
inductive Manifest
  | mixed (env : YamlEnv)
  | flat (content : String)
deriving DecidableEq

/-- The `if conda_only: ... else: ...` branch of `export_environment`: a
non-empty conda-only list yields the mixed document (name `exported_env`,
conda-only entries first, the pip mapping appended only when the pip list is
non-empty); an empty one yields `"\n".join(pip_packages) + "\n"`. -/
def writeManifest (conda_only pip_packages : List String) : Manifest :=
  if conda_only ≠ [] then
    .mixed { name := "exported_env",
             dependencies := conda_only.map YamlDep.str ++
               (if pip_packages ≠ [] then [YamlDep.pip pip_packages] else []) }
  else
    .flat (pyJoin "\n" pip_packages ++ "\n")

/-- The conda-only list computed by a run of `export_environment`. -/
def exportCondaOnly (pypi : String → Bool) (deps : List RawDep) : List String :=
  (classifyRaw pypi deps).2

/-- The full pip list of a run: index-classified entries followed by the
resolved pipdeptree roots. -/
def exportPipAll (pypi : String → Bool) (deps : List RawDep) (tree : List TreeNode) : List String :=
  (classifyRaw pypi deps).1 ++ rootPackages tree

/-- A whole run of the export tool after the subprocess calls: classify the
explicit dependencies, extend the pip list with the pipdeptree roots, write
exactly one manifest. -/
def exportManifest (pypi : String → Bool) (deps : List RawDep) (tree : List TreeNode) : Manifest :=
  writeManifest (exportCondaOnly pypi deps) (exportPipAll pypi deps tree)

/-- One `name==version` line per package, each line newline-terminated. -/
def linesConcat : List String → String
  | [] => ""
  | x :: xs => x ++ "\n" ++ linesConcat xs

/-! ## Import tool: environment name (import_conda_env.py lines 44-57) -/

/-- `env_data.get("name", "imported_env")`. -/
def readYmlEnvName (parsedName : Option String) : String :=
  parsedName.getD "imported_env"

/-- Lines 49-57 of `create_env_from_yml`: the user's input is stripped; a
non-empty answer overrides, an empty one keeps the parsed original name. -/
def chosenEnvName (parsedName : Option String) (userInput : String) : String :=
  if pyStrip userInput ≠ "" then pyStrip userInput else readYmlEnvName parsedName

/-- The PyYAML `dump`/`safe_load` pair is modelled as the identity on the
structured document: parsing the file written for `env` yields the `name` key
`env.name`. -/
def parsedNameOfWritten (env : YamlEnv) : Option String :=
  some env.name

/-! ## Import tool: main flow (import_conda_env.py lines 99-113) -/

/-- What a run of the import tool's `main` does. -/
inductive ImportAction
  | createFromYml
  | createFromRequirements
  | reportMissing
deriving DecidableEq

/-- Whether an action creates a conda environment. -/
def createsEnvironment : ImportAction → Bool
  | .createFromYml => true
  | .createFromRequirements => true
  | .reportMissing => false

/-- Action taken and process exit status of one run of `main`. -/
structure MainOutcome where
  action : ImportAction
  exitCode : Nat
deriving DecidableEq

/-- `main`: `environment.yml` is checked first; only if it is absent is
`requirements.txt` checked; with neither present an error line is printed and
`main` falls through without any `sys.exit`, so the interpreter exits with
status 0. -/
def importMain (ymlExists reqExists : Bool) : MainOutcome :=
  if ymlExists then ⟨.createFromYml, 0⟩
  else if reqExists then ⟨.createFromRequirements, 0⟩
  else ⟨.reportMissing, 0⟩

/-! ## Executable locators (export_conda_env.py lines 34-71,
import_conda_env.py lines 24-41) -/

/-- The error message of the export tool's `get_conda_executable`: it joins
the three searched locations (`searched_paths`) with `"\n  - "` between the
fixed German sentences.  `sp` and `bp` are the `Scripts/conda.exe` and
`bin/conda` paths under `sys.prefix`. -/
def exportCondaErrMsg (sp bp : String) : String :=
  "Konnte \x27conda\x27 nicht finden.\nFolgende Orte wurden durchsucht:\n  - " ++
  pyJoin "\n  - " ["PATH (über shutil.which)", sp, bp] ++
  "\nBitte stelle sicher, dass Miniconda/Anaconda installiert ist und die ausführbare Datei im PATH liegt."

/-- `get_conda_executable` of the export tool: `shutil.which` first, then the
`Scripts` path, then the `bin` path, first hit returned; when all three fail,
raise `FileNotFoundError` with the message listing every searched location.
`condaInPath` is the result of `shutil.which("conda")`; `spExists`/`bpExists`
are the `.exists()` results for the two prefix paths. -/
def get_conda_executable_export (condaInPath : Option String) (sp bp : String)
    (spExists bpExists : Bool) : Except String String :=
  match condaInPath with
  | some p => .ok p
  | none =>
    if spExists then .ok sp
    else if bpExists then .ok bp
    else .error (exportCondaErrMsg sp bp)

/-- The fixed error message of the import tool's `get_conda_executable`: it
names no searched location. -/
def importCondaErrMsg : String :=
  "Konnte \x27conda\x27 nicht finden. Stelle sicher, dass Anaconda/Miniconda installiert ist " ++
  "und conda im PATH verfügbar ist."

/-- `get_conda_executable` of the import tool: same three probes in the same
order, but the failure message is the fixed sentence above. -/
def get_conda_executable_import (condaInPath : Option String) (sp bp : String)
    (spExists bpExists : Bool) : Except String String :=
  match condaInPath with
  | some p => .ok p
  | none =>
    if spExists then .ok sp
    else if bpExists then .ok bp
    else .error importCondaErrMsg

/-! ## Python-version extraction (import_conda_env.py lines 64-84) -/

/-- `line.lower().startswith("python==") or line.lower().startswith("python>=")`. -/
def isPythonPin (line : String) : Bool :=
  pyStartsWith (pyLower line) "python==" || pyStartsWith (pyLower line) "python>="

/-- `line.split("==")[-1] if "==" in line else line.split(">=")[-1]`. -/
def pinnedVersion (line : String) : String :=
  if pyContains line "==" then (pySplit line "==").getLastD ""
  else (pySplit line ">=").getLastD ""

/-- The scanning loop of `create_env_from_requirements`: each line is
stripped; the first line starting (case-insensitively) with `python==` or
`python>=` yields its pinned version and stops the scan (`break`). -/
def extractPythonVersion : List String → Option String
  | [] => none
  | l :: ls =>
    if isPythonPin (pyStrip l) then some (pinnedVersion (pyStrip l))
    else extractPythonVersion ls

/-- `python_spec = f"python={python_version}" if python_version else "python"`. -/
def pythonSpec : Option String → String
  | some v => "python=" ++ v
  | none => "python"

/-- Reading of the spec sentence that the extracted version is the text after
that separator: the text after the 8-character separator (`python==` or
`python>=`) that the stripped line starts with.  Stated only to compare the
spec wording with the code `split(sep)[-1]`. -/
def extractPythonVersion_specReading : List String → Option String
  | [] => none
  | l :: ls =>
    if isPythonPin (pyStrip l) then some ⟨(pyStrip l).data.drop 8⟩
    else extractPythonVersion_specReading ls

/-! ## `show_conda_info` (import_conda_env.py lines 89-96) -/

/-- A Python runtime error relevant here. -/
inductive PyError
  | nameError (missing : String)
deriving DecidableEq

/-- The names bound at module level in `import_conda_env.py`: the four
imported modules, `Path` from `pathlib`, and the five function definitions.
`json` is never imported. -/
def importModuleNames : List String :=
  ["subprocess", "sys", "shutil", "yaml", "Path",
   "get_conda_executable", "create_env_from_yml", "create_env_from_requirements",
   "show_conda_info", "main"]

/-- `show_conda_info`: after the subprocess call it evaluates `json.loads`;
the name `json` is resolved in the module namespace, and since it is absent a
`NameError` is raised before any output is produced.  `envsDirs` stands for
the `envs_dirs` value the function would print on success. -/
def show_conda_info (envsDirs : List String) : Except PyError (List String) :=
  if importModuleNames.contains "json" then .ok envsDirs
  else .error (.nameError "json")

/-- The call edges between the top-level functions of `import_conda_env.py`,
including the `__main__` guard: no caller invokes `show_conda_info`. -/
def importCallEdges : List (String × String) :=
  [("main", "get_conda_executable"),
   ("main", "create_env_from_yml"),
   ("main", "create_env_from_requirements"),
   ("__main__", "main")]

/-! ## Helper lemmas -/

theorem takeWhile_append_of_all {α : Type} (p : α → Bool) {l₁ : List α} (l₂ : List α)
    (h : ∀ x ∈ l₁, p x = true) : (l₁ ++ l₂).takeWhile p = l₁ ++ l₂.takeWhile p := by
  induction l₁ with
  | nil => simp
  | cons a l ih =>
    have ha : p a = true := h a (by simp)
    simp only [List.cons_append, List.takeWhile_cons, ha, if_true]
    exact congrArg (a :: ·) (ih fun x hx => h x (by simp [hx]))

theorem takeWhile_eq_self_of_all {α : Type} {p : α → Bool} {l : List α}
    (h : ∀ x ∈ l, p x = true) : l.takeWhile p = l := by
  induction l with
  | nil => rfl
  | cons a l ih =>
    have ha : p a = true := h a (by simp)
    simp only [List.takeWhile_cons, ha, if_true]
    exact congrArg (a :: ·) (ih fun x hx => h x (by simp [hx]))

/-- Rewriting the first `=` to `==` does not change the name before the first
`=`. -/
theorem nameOf_replaceFirstEq (d : String) : nameOf (replaceFirstEq d) = nameOf d := by
  refine congrArg String.mk ?_
  show ((d.data.takeWhile (fun c => c != '=')) ++
      doubleEqHead (d.data.dropWhile (fun c => c != '='))).takeWhile (fun c => c != '=')
    = d.data.takeWhile (fun c => c != '=')
  cases hm : d.data.dropWhile (fun c => c != '=') with
  | nil =>
    rw [doubleEqHead, List.append_nil]
    exact takeWhile_eq_self_of_all fun x hx => (List.mem_takeWhile_imp hx : _)
  | cons c rest =>
    rw [doubleEqHead,
      takeWhile_append_of_all _ _ fun x hx => (List.mem_takeWhile_imp hx : _)]
    simp [List.takeWhile_cons]

theorem classify_fst (pypi : String → Bool) (deps : List String) :
    (classify pypi deps).1 = (deps.filter (fun d => pypi (nameOf d))).map replaceFirstEq := by
  induction deps with
  | nil => rfl
  | cons d ds ih =>
    simp only [classify, List.filter_cons]
    cases h : pypi (nameOf d) <;> simp [h, ih]

theorem classify_snd (pypi : String → Bool) (deps : List String) :
    (classify pypi deps).2 = deps.filter (fun d => !(pypi (nameOf d))) := by
  induction deps with
  | nil => rfl
  | cons d ds ih =>
    simp only [classify, List.filter_cons]
    cases h : pypi (nameOf d) <;> simp [h, ih]

theorem mem_allDependencies {tree : List TreeNode} {k : String} :
    k ∈ allDependencies tree ↔ ∃ r ∈ tree, k ∈ r.dependencies := by
  simp [allDependencies, List.mem_flatten]

theorem rootNodes_eq_filter (tree : List TreeNode) :
    rootNodes tree
      = tree.filter (fun p => decide (∀ r ∈ tree, p.package.key ∉ r.dependencies)) := by
  refine List.filter_congr fun p _ => ?_
  rw [← decide_not, decide_eq_decide]
  simp [mem_allDependencies]

theorem classify_fst_names (pypi : String → Bool) (deps : List String) :
    (classify pypi deps).1.map nameOf = (deps.filter (fun d => pypi (nameOf d))).map nameOf := by
  induction deps with
  | nil => rfl
  | cons d ds ih =>
    simp only [classify, List.filter_cons]
    cases h : pypi (nameOf d) <;> simp [h, ih, nameOf_replaceFirstEq]

theorem pyJoin_newline (l : List String) (h : l ≠ []) :
    pyJoin "\n" l ++ "\n" = linesConcat l := by
  induction l with
  | nil => exact absurd rfl h
  | cons x xs ih =>
    cases xs with
    | nil => rw [pyJoin, linesConcat, linesConcat, String.append_empty]
    | cons y ys =>
      rw [pyJoin, linesConcat, String.append_assoc, ih (by simp)]

theorem containsChars_iff (sub l : List Char) : containsChars sub l = true ↔ sub <:+: l := by
  induction l with
  | nil =>
    simp [containsChars, List.isEmpty_iff]
  | cons c rest ih =>
    simp only [containsChars, Bool.or_eq_true, List.isPrefixOf_iff_prefix, ih,
      List.infix_cons_iff]

theorem exportCondaErrMsg_data (sp bp : String) :
    (exportCondaErrMsg sp bp).data =
      "Konnte \x27conda\x27 nicht finden.\nFolgende Orte wurden durchsucht:\n  - ".data ++
      ("PATH (über shutil.which)".data ++ ("\n  - ".data ++ (sp.data ++ ("\n  - ".data ++
      (bp.data ++
      "\nBitte stelle sicher, dass Miniconda/Anaconda installiert ist und die ausführbare Datei im PATH liegt.".data))))) := by
  simp [exportCondaErrMsg, pyJoin, String.data_append, List.append_assoc]

/-- Each searched location occurs verbatim in the export tool's error
message. -/
theorem searched_locations_in_exportErrMsg (sp bp : String) :
    ∀ loc ∈ ["PATH (über shutil.which)", sp, bp],
      loc.data <:+: (exportCondaErrMsg sp bp).data := by
  have h1 : "PATH (über shutil.which)".data <:+: (exportCondaErrMsg sp bp).data := by
    rw [exportCondaErrMsg_data]
    exact ⟨"Konnte \x27conda\x27 nicht finden.\nFolgende Orte wurden durchsucht:\n  - ".data,
      "\n  - ".data ++ (sp.data ++ ("\n  - ".data ++ (bp.data ++
        "\nBitte stelle sicher, dass Miniconda/Anaconda installiert ist und die ausführbare Datei im PATH liegt.".data))),
      by simp [List.append_assoc]⟩
  have h2 : sp.data <:+: (exportCondaErrMsg sp bp).data := by
    rw [exportCondaErrMsg_data]
    exact ⟨"Konnte \x27conda\x27 nicht finden.\nFolgende Orte wurden durchsucht:\n  - ".data ++
      ("PATH (über shutil.which)".data ++ "\n  - ".data),
      "\n  - ".data ++ (bp.data ++
        "\nBitte stelle sicher, dass Miniconda/Anaconda installiert ist und die ausführbare Datei im PATH liegt.".data),
      by simp [List.append_assoc]⟩
  have h3 : bp.data <:+: (exportCondaErrMsg sp bp).data := by
    rw [exportCondaErrMsg_data]
    exact ⟨"Konnte \x27conda\x27 nicht finden.\nFolgende Orte wurden durchsucht:\n  - ".data ++
      ("PATH (über shutil.which)".data ++ ("\n  - ".data ++ (sp.data ++ "\n  - ".data))),
      "\nBitte stelle sicher, dass Miniconda/Anaconda installiert ist und die ausführbare Datei im PATH liegt.".data,
      by simp [List.append_assoc]⟩
  intro loc hloc
  simp only [List.mem_cons, List.not_mem_nil, or_false] at hloc
  rcases hloc with rfl | rfl | rfl
  · exact h1
  · exact h2
  · exact h3

/-! ## Claim theorems -/

/-- C1: on a list of dependency strings the classifier returns two ordered
sequences: the pip list is exactly the index-available entries in input order
with only their first `=` doubled, the conda-only list is exactly the other
entries unmodified in input order, the two lists are disjoint by name, and
together their names are a permutation of the input names. -/
theorem C1_classifier_partition (pypi : String → Bool) (deps : List String) :
    (classify pypi deps).1 = (deps.filter (fun d => pypi (nameOf d))).map replaceFirstEq
    ∧ (classify pypi deps).2 = deps.filter (fun d => !(pypi (nameOf d)))
    ∧ ((classify pypi deps).1.map nameOf).Disjoint ((classify pypi deps).2.map nameOf)
    ∧ ((classify pypi deps).1.map nameOf ++ (classify pypi deps).2.map nameOf).Perm
        (deps.map nameOf) := by
  refine ⟨classify_fst pypi deps, classify_snd pypi deps, ?_, ?_⟩
  · intro a ha hb
    rw [classify_fst_names] at ha
    rw [classify_snd] at hb
    simp only [List.mem_map, List.mem_filter] at ha hb
    obtain ⟨d, ⟨_, hpd⟩, hda⟩ := ha
    obtain ⟨e, ⟨_, hpe⟩, hea⟩ := hb
    rw [hda] at hpd
    rw [hea] at hpe
    rw [hpd] at hpe
    simp at hpe
  · rw [classify_fst_names, classify_snd, ← List.map_append]
    exact (List.filter_append_perm _ deps).map nameOf

/-- Witness for C1: the classifier evaluated on the spec's example input. -/
theorem C1_classifier_partition_witness :
    (classify (fun s => s == "numpy") ["numpy=1.26.0", "some-conda-only-tool=2.1"]).1
      = ["numpy==1.26.0"]
    ∧ (classify (fun s => s == "numpy") ["numpy=1.26.0", "some-conda-only-tool=2.1"]).2
      = ["some-conda-only-tool=2.1"] := by
  have h := C1_classifier_partition (fun s => s == "numpy")
    ["numpy=1.26.0", "some-conda-only-tool=2.1"]
  exact ⟨h.1.trans (by decide), h.2.1.trans (by decide)⟩

/-- C2: the root-package resolver outputs exactly the packages whose key
appears in no node's dependency list, as `key==installed_version` strings in
the tree's original order; a graph without edges yields every package and a
graph in which every key is depended upon yields the empty list. -/
theorem C2_root_resolver (tree : List TreeNode) :
    (∀ q, q ∈ rootNodes tree ↔ q ∈ tree ∧ ∀ r ∈ tree, q.package.key ∉ r.dependencies)
    ∧ rootPackages tree
        = (tree.filter (fun p => decide (∀ r ∈ tree, p.package.key ∉ r.dependencies))).map
            (fun p => p.package.key ++ "==" ++ p.package.installed_version)
    ∧ ((∀ p ∈ tree, p.dependencies = []) → rootPackages tree
        = tree.map (fun p => p.package.key ++ "==" ++ p.package.installed_version))
    ∧ ((∀ p ∈ tree, ∃ r ∈ tree, p.package.key ∈ r.dependencies) → rootPackages tree = []) := by
  refine ⟨?_, ?_, ?_, ?_⟩
  · intro q
    rw [rootNodes_eq_filter, List.mem_filter]
    simp
  · rw [rootPackages, rootNodes_eq_filter]
  · intro h
    rw [rootPackages, rootNodes_eq_filter]
    rw [List.filter_eq_self.mpr]
    intro p hp
    simp only [decide_eq_true_eq]
    intro r hr
    rw [h r hr]
    exact List.not_mem_nil _
  · intro h
    rw [rootPackages, rootNodes_eq_filter]
    rw [List.filter_eq_nil_iff.mpr, List.map_nil]
    intro p hp
    simp only [decide_eq_true_eq, not_forall]
    obtain ⟨r, hr, hk⟩ := h p hp
    exact ⟨r, hr, by simpa using hk⟩

/-- Witness for C2 on a concrete two-node graph with one edge. -/
theorem C2_root_resolver_witness :
    rootPackages
      [⟨⟨"pandas", "2.2"⟩, ["numpy"]⟩, ⟨⟨"numpy", "1.26"⟩, []⟩]
      = ["pandas==2.2"]
    ∧ rootPackages [⟨⟨"a", "1"⟩, ["a"]⟩] = [] := by
  constructor
  · exact ((C2_root_resolver
      [⟨⟨"pandas", "2.2"⟩, ["numpy"]⟩, ⟨⟨"numpy", "1.26"⟩, []⟩]).2.1).trans (by decide)
  · exact (C2_root_resolver [⟨⟨"a", "1"⟩, ["a"]⟩]).2.2.2 (by decide)

/-- C3: every run writes exactly one manifest, decided by content: the mixed
document is produced if and only if the conda-only list is non-empty, in
which case its dependencies are the conda-only entries first with the nested
pip entry appended exactly when the full pip list (index-classified entries
followed by resolved pip roots) is non-empty; otherwise the flat manifest is
written, one `name==version` line per pip package with a trailing newline. -/
theorem C3_manifest_writer (pypi : String → Bool) (deps : List RawDep) (tree : List TreeNode) :
    ((∃ e, exportManifest pypi deps tree = .mixed e) ↔ exportCondaOnly pypi deps ≠ [])
    ∧ (exportCondaOnly pypi deps ≠ [] →
        exportManifest pypi deps tree = .mixed
          ⟨"exported_env",
            (exportCondaOnly pypi deps).map YamlDep.str ++
              (if exportPipAll pypi deps tree ≠ [] then [YamlDep.pip (exportPipAll pypi deps tree)]
               else [])⟩)
    ∧ (exportCondaOnly pypi deps = [] →
        exportManifest pypi deps tree = .flat (pyJoin "\n" (exportPipAll pypi deps tree) ++ "\n"))
    ∧ (exportPipAll pypi deps tree ≠ [] →
        pyJoin "\n" (exportPipAll pypi deps tree) ++ "\n"
          = linesConcat (exportPipAll pypi deps tree)) := by
  refine ⟨?_, ?_, ?_, pyJoin_newline _⟩
  · by_cases h : exportCondaOnly pypi deps = [] <;>
      simp [exportManifest, writeManifest, h]
  · intro h
    simp [exportManifest, writeManifest, h]
  · intro h
    simp [exportManifest, writeManifest, h]

/-- Witness for C3: the spec's scenario (one conda-only, one pip package plus
a pip root) yields the mixed document; all-pip input yields the flat file. -/
theorem C3_manifest_writer_witness :
    exportManifest (fun s => s == "numpy")
      [RawDep.str "numpy=1.26.0", RawDep.str "some-conda-only-tool=2.1"]
      [⟨⟨"requests", "2.31"⟩, []⟩]
      = .mixed ⟨"exported_env",
          [YamlDep.str "some-conda-only-tool=2.1",
           YamlDep.pip ["numpy==1.26.0", "requests==2.31"]]⟩
    ∧ exportManifest (fun s => s == "numpy") [RawDep.str "numpy=1.26.0"] []
      = .flat "numpy==1.26.0\n" := by
  constructor
  · exact ((C3_manifest_writer (fun s => s == "numpy")
      [RawDep.str "numpy=1.26.0", RawDep.str "some-conda-only-tool=2.1"]
      [⟨⟨"requests", "2.31"⟩, []⟩]).2.1 (by decide)).trans (by decide)
  · exact ((C3_manifest_writer (fun s => s == "numpy")
      [RawDep.str "numpy=1.26.0"] []).2.2.1 (by decide)).trans (by decide)

/-- C7: writing the mixed manifest (always done with a non-empty conda-only
list) and re-parsing the written document's name recovers the written
environment name when the user's prompt answer strips to empty; that name is
the fixed `exported_env`. -/
theorem C7_roundtrip_name (conda_only pip : List String) (env : YamlEnv) (userInput : String)
    (hconda : conda_only ≠ []) (henv : writeManifest conda_only pip = .mixed env)
    (hinput : pyStrip userInput = "") :
    chosenEnvName (parsedNameOfWritten env) userInput = env.name
    ∧ env.name = "exported_env" := by
  rw [writeManifest, if_pos hconda] at henv
  have hname : env.name = "exported_env" := by
    cases henv' : env with
    | mk n d =>
      rw [henv'] at henv
      simp only [Manifest.mixed.injEq, YamlEnv.mk.injEq] at henv
      simp [henv.1]
  refine ⟨?_, hname⟩
  rw [chosenEnvName, if_neg (by simp [hinput]), parsedNameOfWritten, readYmlEnvName,
    Option.getD_some]

/-- Witness for C7 at a concrete written document and a whitespace answer. -/
theorem C7_roundtrip_name_witness :
    chosenEnvName
      (parsedNameOfWritten ⟨"exported_env", [YamlDep.str "tool=2.1"]⟩) "  "
      = "exported_env" :=
  (C7_roundtrip_name ["tool=2.1"] [] ⟨"exported_env", [YamlDep.str "tool=2.1"]⟩ "  "
    (by decide) (by decide) (by decide)).1

/-- C4: the index checker returns `true` exactly when the single HTTP GET
returns status 200; every other status and every raised network error yields
`false`, and no exception propagates (the function is total on all
outcomes). -/
theorem C4_index_checker (o : HttpOutcome) :
    check_pypi_package o = true ↔ o = .response 200 := by
  cases o with
  | response s => simp [check_pypi_package]
  | exn => simp [check_pypi_package]

/-- Witness for C4 at the concrete outcome `response 200`. -/
theorem C4_index_checker_witness : check_pypi_package (.response 200) = true :=
  (C4_index_checker (.response 200)).mpr rfl

/-- C5: on import, `environment.yml` is checked first (its presence decides
the action regardless of `requirements.txt`), the flat manifest is used only
when the mixed one is absent, and with neither present the run reports the
missing manifests, creates no environment, and exits with status 0. -/
theorem C5_import_detection :
    (∀ r, (importMain true r).action = .createFromYml)
    ∧ (importMain false true).action = .createFromRequirements
    ∧ importMain false false = ⟨.reportMissing, 0⟩
    ∧ createsEnvironment .reportMissing = false :=
  ⟨fun _ => rfl, rfl, rfl, rfl⟩

/-- Witness for C5: the neither-file run at concrete inputs. -/
theorem C5_import_detection_witness : importMain false false = ⟨.reportMissing, 0⟩ :=
  C5_import_detection.2.2.1

/-- C9: the classifier only processes string entries: classifying a raw
dependency list equals classifying its string entries, and a non-string entry
(the nested pip mapping) prepended to any input leaves both output lists
unchanged, so it appears in neither. -/
theorem C9_nonstring_entries_skipped (pypi : String → Bool) (deps : List RawDep) :
    classifyRaw pypi deps = classify pypi (stringDeps deps)
    ∧ (∀ pkgs, classifyRaw pypi (RawDep.pipDict pkgs :: deps) = classifyRaw pypi deps) := by
  constructor
  · induction deps with
    | nil => rfl
    | cons d ds ih => cases d <;> simp [classifyRaw, stringDeps, classify, ih]
  · intro pkgs
    rfl

/-- Witness for C9 at a concrete mixed input. -/
theorem C9_nonstring_entries_skipped_witness :
    classifyRaw (fun s => s == "numpy") [RawDep.pipDict ["x==1"], RawDep.str "numpy=1.0"]
      = classify (fun s => s == "numpy") ["numpy=1.0"] :=
  (C9_nonstring_entries_skipped (fun s => s == "numpy")
    [RawDep.pipDict ["x==1"], RawDep.str "numpy=1.0"]).1

/-- C10: `show_conda_info` references `json.loads` while `json` is not among
the module-level names of import_conda_env.py, so every invocation raises a
`NameError` before producing output; and no call edge in the file targets
`show_conda_info`. -/
theorem C10_show_conda_info_name_error :
    (∀ dirs, show_conda_info dirs = .error (.nameError "json"))
    ∧ importModuleNames.contains "json" = false
    ∧ importCallEdges.all (fun e => !(e.2 == "show_conda_info")) = true :=
  ⟨fun _ => rfl, rfl, rfl⟩

/-- Witness for C10 at a concrete parsed info value. -/
theorem C10_show_conda_info_name_error_witness :
    show_conda_info ["/home/u/envs"] = .error (.nameError "json") :=
  C10_show_conda_info_name_error.1 ["/home/u/envs"]

/-- C6 counterexample: when all three probes fail, the import tool's locator
raises its fixed message, and the checked `Scripts` location does not occur in
that message — so in the import tool the error does not enumerate the checked
locations. -/
theorem C6_counterexample :
    get_conda_executable_import none "/opt/python/Scripts/conda.exe" "/opt/python/bin/conda"
        false false = .error importCondaErrMsg
    ∧ ¬ ("/opt/python/Scripts/conda.exe".data <:+: importCondaErrMsg.data) :=
  ⟨rfl, fun h => absurd ((containsChars_iff _ _).mpr h) (by decide)⟩

/-- C6 (amended): both locators probe the command-search PATH, then the
`Scripts` path, then the `bin` path, returning the first hit; when all three
fail, the export tool's error enumerates every searched location in its
message, while the import tool's error is a fixed sentence naming none of
them. -/
theorem C6_executable_locator (p sp bp : String) (se be : Bool) :
    get_conda_executable_export (some p) sp bp se be = .ok p
    ∧ get_conda_executable_export none sp bp true be = .ok sp
    ∧ get_conda_executable_export none sp bp false true = .ok bp
    ∧ get_conda_executable_export none sp bp false false = .error (exportCondaErrMsg sp bp)
    ∧ (∀ loc ∈ ["PATH (über shutil.which)", sp, bp],
        loc.data <:+: (exportCondaErrMsg sp bp).data)
    ∧ get_conda_executable_import (some p) sp bp se be = .ok p
    ∧ get_conda_executable_import none sp bp true be = .ok sp
    ∧ get_conda_executable_import none sp bp false true = .ok bp
    ∧ get_conda_executable_import none sp bp false false = .error importCondaErrMsg :=
  ⟨rfl, rfl, rfl, rfl, searched_locations_in_exportErrMsg sp bp, rfl, rfl, rfl, rfl⟩

/-- Witness for C6 at concrete paths: the export failure message contains the
`Scripts` location. -/
theorem C6_executable_locator_witness :
    "/opt/python/Scripts/conda.exe".data <:+:
      (exportCondaErrMsg "/opt/python/Scripts/conda.exe" "/opt/python/bin/conda").data :=
  (C6_executable_locator "/usr/bin/conda" "/opt/python/Scripts/conda.exe"
      "/opt/python/bin/conda" false false).2.2.2.2.1
    "/opt/python/Scripts/conda.exe" (by simp)

/-- C8 counterexample: on the line `python==1.0==2.0` the code evaluates
`split("==")[-1]` to `2.0`, while the claimed version text after that
separator is `1.0==2.0` — the two disagree. -/
theorem C8_counterexample :
    extractPythonVersion ["python==1.0==2.0"] = some "2.0"
    ∧ extractPythonVersion_specReading ["python==1.0==2.0"] = some "1.0==2.0"
    ∧ extractPythonVersion ["python==1.0==2.0"]
        ≠ extractPythonVersion_specReading ["python==1.0==2.0"] :=
  ⟨by decide, by decide, by decide⟩

/-- C8 (amended): the tool scans lines in order for the first stripped line
starting case-insensitively with `python==` or `python>=`; from it the
version is the last `==`-separated segment when the line contains `==`,
otherwise the last `>=`-separated segment (for a line with a single
separator, the text after that separator); with no such line the python spec
is unpinned; in particular `python==3.11` yields `3.11` and spec
`python=3.11`. -/
theorem C8_python_version_extraction :
    (∀ pre l post, (∀ x ∈ pre, isPythonPin (pyStrip x) = false) →
      isPythonPin (pyStrip l) = true →
      extractPythonVersion (pre ++ l :: post) = some (pinnedVersion (pyStrip l)))
    ∧ (∀ lines, (∀ x ∈ lines, isPythonPin (pyStrip x) = false) →
        extractPythonVersion lines = none)
    ∧ pythonSpec none = "python"
    ∧ extractPythonVersion ["python==3.11"] = some "3.11"
    ∧ pythonSpec (some "3.11") = "python=3.11"
    ∧ extractPythonVersion ["python>=3.10"] = some "3.10" := by
  refine ⟨?_, ?_, rfl, by decide, rfl, by decide⟩
  · intro pre l post hpre hl
    induction pre with
    | nil => simp [extractPythonVersion, hl]
    | cons x xs ih =>
      have hx : isPythonPin (pyStrip x) = false := hpre x (by simp)
      simp only [List.cons_append, extractPythonVersion, hx]
      simp only [Bool.false_eq_true, if_false]
      exact ih fun y hy => hpre y (by simp [hy])
  · intro lines hlines
    induction lines with
    | nil => rfl
    | cons x xs ih =>
      have hx : isPythonPin (pyStrip x) = false := hlines x (by simp)
      simp only [extractPythonVersion, hx]
      simp only [Bool.false_eq_true, if_false]
      exact ih fun y hy => hlines y (by simp [hy])

/-- Witness for C8: the scan skips a non-python line and extracts from the
first pinned line. -/
theorem C8_python_version_extraction_witness :
    extractPythonVersion ["numpy==1.26.0", "python==3.11"]
      = some (pinnedVersion (pyStrip "python==3.11")) :=
  C8_python_version_extraction.1 ["numpy==1.26.0"] "python==3.11" []
    (by intro x hx; simp at hx; rw [hx]; decide) (by decide)

end CondaEnv
